import Mathlib

/-!
Verification of the smol-course instructional notebooks.

The repository contains two Jupyter notebooks that fine-tune the small
causal language model HuggingFaceTB/SmolLM2-135M with the external
trl / peft / transformers libraries:

* the LoRA notebook (src/unnamed/part_000), which passes a LoraConfig as
  peft_config to the SFTTrainer, merges the adapter after training and
  runs a small inference loop;
* the turtle notebook
  (src/1_instruction_tuning/notebooks/sft_finetuning_example_turtle.ipynb),
  which runs a plain SFTTrainer without a peft_config and pushes the
  result to the hub.

The notebooks are straight-line scripts, so each is embedded as the list
of operations its code cells perform, in execution order.  Configuration
objects (LoraConfig, SFTConfig, the SFTTrainer keyword arguments) are
embedded as structures holding exactly the values the notebook code
assigns.  Floating point hyperparameters (dropout, learning rate) are
decimal literals in the source and are embedded exactly as a mantissa
with a power-of-ten shift.
-/

/-- Exact value of a decimal literal of the source:
mantissa / 10 ^ shift.  For example 0.1 is ⟨1, 1⟩, 0.05 is ⟨5, 2⟩,
2e-4 is ⟨2, 4⟩ and 5e-5 is ⟨5, 5⟩. -/
structure Decimal where
  mantissa : Nat
  shift : Nat
deriving DecidableEq

/-- Adapter configuration built by the call LoraConfig(...) in the LoRA
notebook.  Fields are the keyword arguments that call passes. -/
structure LoraConfigT where
  r : Nat
  lora_alpha : Nat
  lora_dropout : Decimal
  bias : String
  target_modules : String
  task_type : String
deriving DecidableEq

/-- Training-argument object built by SFTConfig(...).  The structure
holds the keyword arguments that at least one of the two notebooks
passes; a field is none when the notebook leaves that argument to the
library default. -/
structure SFTConfigT where
  output_dir : String
  num_train_epochs : Option Nat
  per_device_train_batch_size : Option Nat
  learning_rate : Option Decimal
  lr_scheduler_type : Option String
  logging_steps : Option Nat
  max_steps : Option Nat
  save_steps : Option Nat
  eval_steps : Option Nat
  bf16 : Option Bool
  push_to_hub : Option Bool
  report_to : Option String
  use_mps_device : Option Bool
  hub_model_id : Option String
deriving DecidableEq

/-- Keyword arguments of the call SFTTrainer(...).  The model and the
dataset splits are recorded by name; peft_config is none when the call
does not pass one. -/
structure TrainerT where
  model_name : String
  train_split : String
  eval_split : Option String
  peft_config : Option LoraConfigT
  max_seq_length : Option Nat
  packing : Option Bool
  args : SFTConfigT
deriving DecidableEq

/-- Operations a notebook cell performs, in the order the cells execute.
A comment line is recorded (as .comment) only where a claim refers to
it; it executes nothing. -/
inductive Op where
  | comment (text : String)
  | importLib (lib : String)
  | login
  | loadDataset (path : String) (cfgName : String)
  | loadModel (modelName : String)
  | loadTokenizer (modelName : String)
  | setupChatFormat
  | generateAndPrint (label : String)
  | wandbInit (project : String)
  | configureLora (cfg : LoraConfigT)
  | configureSft (cfg : SFTConfigT)
  | createTrainer (t : TrainerT)
  | trainerTrain
  | saveModel (dir : Option String)
  | wandbFinish
  | loadPeftModel (dir : String)
  | mergeAndUnload
  | saveMergedModel (dir : String) (safeSerialization : Bool)
  | freeMemory
  | createPipeline
  | displayHtml (text : String)
  | pushToHub
  | kernelShutdown
  | pipInstall (packages : List String)
deriving DecidableEq

/-- Device selection shared by both notebooks:
device = "cuda" if torch.cuda.is_available() else "mps" if
torch.backends.mps.is_available() else "cpu". -/
def device (cudaIsAvailable mpsIsAvailable : Bool) : String :=
  if cudaIsAvailable then "cuda"
  else if mpsIsAvailable then "mps" else "cpu"

/-- Text of the commented-out install line at the top of both notebooks
(the leading hash of the comment is stripped). -/
def pipInstallLine : String :=
  "!pip install transformers datasets trl huggingface_hub"

namespace Lora

/-- Model identifier assigned to model_name in the LoRA notebook. -/
def model_name : String := "HuggingFaceTB/SmolLM2-135M"

/-- Name assigned to finetune_name. -/
def finetune_name : String := "SmolLM2-FT-MyDataset"

/-- Dictionary passed to wandb.init(config=...) in the LoRA parameter
cell. -/
structure WandbConfigT where
  rank_dimension : Nat
  lora_alpha : Nat
  lora_dropout : Decimal
  learning_rate : Decimal
  num_train_epochs : Nat
deriving DecidableEq

/-- The wandb run configuration of wandb.init(project="smoltalk-lora-tuning",
config={rank_dimension 16, lora_alpha 32, lora_dropout 0.1,
learning_rate 2e-4, num_train_epochs 3}). -/
def wandb_config : WandbConfigT :=
  { rank_dimension := 16
    lora_alpha := 32
    lora_dropout := ⟨1, 1⟩
    learning_rate := ⟨2, 4⟩
    num_train_epochs := 3 }

/-- The LoRA parameter cell.  The cell assigns the local variables
rank_dimension = 6, lora_alpha = 8 and lora_dropout = 0.05 (passed here
as arguments), then builds the LoraConfig from wandb.config, never
reading those locals again. -/
def loraConfigCell (rank_dimension : Nat) (lora_alpha : Nat)
    (lora_dropout : Decimal) : LoraConfigT :=
  { r := wandb_config.rank_dimension
    lora_alpha := wandb_config.lora_alpha
    lora_dropout := wandb_config.lora_dropout
    bias := "none"
    target_modules := "all-linear"
    task_type := "CAUSAL_LM" }

/-- The value peft_config produced by running the parameter cell with
its actual local assignments 6, 8 and 0.05. -/
def peft_config : LoraConfigT := loraConfigCell 6 8 ⟨5, 2⟩

/-- The SFTConfig(...) call of the LoRA notebook.  Arguments the call
passes but no claim mentions (gradient_accumulation_steps,
gradient_checkpointing, optim, max_grad_norm, the warmup portion,
save_strategy) are left to the library default here. -/
def args : SFTConfigT :=
  { output_dir := finetune_name
    num_train_epochs := some 2
    per_device_train_batch_size := some 2
    learning_rate := some ⟨2, 4⟩
    lr_scheduler_type := some "constant"
    logging_steps := some 10
    max_steps := none
    save_steps := none
    eval_steps := none
    bf16 := some true
    push_to_hub := some false
    report_to := some "wandb"
    use_mps_device := none
    hub_model_id := none }

/-- The SFTTrainer(...) call of the LoRA notebook: it passes
peft_config, max_seq_length = 1512 and packing = True, and trains on
dataset["train"]. -/
def trainer : TrainerT :=
  { model_name := model_name
    train_split := "train"
    eval_split := none
    peft_config := some peft_config
    max_seq_length := some 1512
    packing := some true
    args := args }

/-- The LoRA notebook as the list of operations its code cells perform,
cell by cell. -/
def notebook : List Op :=
  [ -- cell 1: commented install, import of login, login()
    Op.comment pipInstallLine,
    Op.importLib "huggingface_hub",
    Op.login,
    -- cell 2: load_dataset(path="HuggingFaceTB/smoltalk",
    -- name="everyday-conversations")
    Op.importLib "datasets",
    Op.loadDataset "HuggingFaceTB/smoltalk" "everyday-conversations",
    -- cell 3: imports, model and tokenizer, chat format
    Op.importLib "transformers",
    Op.importLib "datasets",
    Op.importLib "trl",
    Op.importLib "torch",
    Op.loadModel model_name,
    Op.loadTokenizer model_name,
    Op.setupChatFormat,
    -- cell 4: base-model sample, print("Before training:")
    Op.generateAndPrint "Before training:",
    -- cell 5: wandb.init and LoraConfig
    Op.importLib "peft",
    Op.importLib "wandb",
    Op.wandbInit "smoltalk-lora-tuning",
    Op.configureLora peft_config,
    -- cell 6: SFTConfig
    Op.configureSft args,
    -- cell 7: SFTTrainer
    Op.createTrainer trainer,
    -- cell 8: trainer.train(), trainer.save_model(), wandb.finish()
    Op.trainerTrain,
    Op.saveModel none,
    Op.wandbFinish,
    -- cell 9: reload from args.output_dir, merge_and_unload,
    -- merged_model.save_pretrained(args.output_dir,
    -- safe_serialization=True, max_shard_size="2GB")
    Op.importLib "peft",
    Op.loadPeftModel args.output_dir,
    Op.mergeAndUnload,
    Op.saveMergedModel args.output_dir true,
    -- cell 10: del model, del trainer, empty_cache
    Op.freeMemory,
    -- cell 11: reload tokenizer and adapter model, build the pipeline
    Op.importLib "torch",
    Op.importLib "peft",
    Op.importLib "transformers",
    Op.loadTokenizer finetune_name,
    Op.loadPeftModel finetune_name,
    Op.createPipeline,
    -- cell 12: inference loop printing a response per prompt
    Op.generateAndPrint "Response:",
    -- cell 13: HTML notice, kernel shutdown
    Op.importLib "IPython",
    Op.displayHtml "Kernel will shut down...",
    Op.kernelShutdown ]

end Lora

namespace Turtle

/-- Model identifier assigned to model_name in the turtle notebook. -/
def model_name : String := "HuggingFaceTB/SmolLM2-135M"

/-- Name assigned to finetune_name. -/
def finetune_name : String := "SmolLM2-FT-Smoltalk"

/-- The use_mps_device argument of the turtle SFTConfig:
True if device == "mps" else False. -/
def use_mps_device (cudaIsAvailable mpsIsAvailable : Bool) : Bool :=
  if device cudaIsAvailable mpsIsAvailable = "mps" then true else false

/-- The SFTConfig(...) call of the turtle notebook, parameterised by the
two torch availability probes the device string depends on. -/
def sft_config (cudaIsAvailable mpsIsAvailable : Bool) : SFTConfigT :=
  { output_dir := "./sft_output"
    num_train_epochs := none
    per_device_train_batch_size := some 4
    learning_rate := some ⟨5, 5⟩
    lr_scheduler_type := none
    logging_steps := some 10
    max_steps := some 1000
    save_steps := some 100
    eval_steps := some 50
    bf16 := none
    push_to_hub := none
    report_to := none
    use_mps_device := some (use_mps_device cudaIsAvailable mpsIsAvailable)
    hub_model_id := some finetune_name }

/-- The SFTTrainer(...) call of the turtle notebook: no peft_config, no
max_seq_length, no packing; it trains on ds["train"] and evaluates on
ds["test"]. -/
def trainer (cudaIsAvailable mpsIsAvailable : Bool) : TrainerT :=
  { model_name := model_name
    train_split := "train"
    eval_split := some "test"
    peft_config := none
    max_seq_length := none
    packing := none
    args := sft_config cudaIsAvailable mpsIsAvailable }

/-- The turtle notebook as the list of operations its code cells
perform, cell by cell. -/
def notebook (cudaIsAvailable mpsIsAvailable : Bool) : List Op :=
  [ -- cell-1: commented install, import of login, login()
    Op.comment pipInstallLine,
    Op.importLib "huggingface_hub",
    Op.login,
    -- cell-2: imports, model and tokenizer, chat format
    Op.importLib "transformers",
    Op.importLib "datasets",
    Op.importLib "trl",
    Op.importLib "torch",
    Op.loadModel model_name,
    Op.loadTokenizer model_name,
    Op.setupChatFormat,
    -- cell-4: base-model sample, print("Before training:")
    Op.generateAndPrint "Before training:",
    -- cell-6: load_dataset(path="HuggingFaceTB/smoltalk",
    -- name="everyday-conversations")
    Op.importLib "datasets",
    Op.loadDataset "HuggingFaceTB/smoltalk" "everyday-conversations",
    -- cell-9: SFTConfig and SFTTrainer
    Op.configureSft (sft_config cudaIsAvailable mpsIsAvailable),
    Op.createTrainer (trainer cudaIsAvailable mpsIsAvailable),
    -- cell-11: trainer.train(), trainer.save_model("./SmolLM2-FT-Smoltalk")
    Op.trainerTrain,
    Op.saveModel (some ("./" ++ finetune_name)),
    -- cell-12: trainer.push_to_hub(tags=finetune_tags)
    Op.pushToHub,
    -- cell-14: fine-tuned sample, print("After training:")
    Op.generateAndPrint "After training:",
    -- cell-15: HTML notice, kernel shutdown
    Op.importLib "IPython",
    Op.displayHtml "Kernel will shut down...",
    Op.kernelShutdown ]

end Turtle

/-! Classifiers over operations, used to state ordering and effect
properties of the two notebooks. -/

/-- True on the print of the base-model sample labelled
"Before training:". -/
def isBeforeTrainingPrint : Op → Bool
  | .generateAndPrint label => label = "Before training:"
  | _ => false

/-- True on any cell that generates text and prints it. -/
def isGenerationPrint : Op → Bool
  | .generateAndPrint _ => true
  | _ => false

/-- True on the trainer.train() call. -/
def isTrainerTrain : Op → Bool
  | .trainerTrain => true
  | _ => false

/-- True on the SFTTrainer(...) construction. -/
def isCreateTrainer : Op → Bool
  | .createTrainer _ => true
  | _ => false

/-- True on the model.merge_and_unload() call. -/
def isMergeAndUnload : Op → Bool
  | .mergeAndUnload => true
  | _ => false

/-- True on the merged_model.save_pretrained(...) call. -/
def isSaveMergedModel : Op → Bool
  | .saveMergedModel _ _ => true
  | _ => false

/-- True on an executed pip install (no notebook contains one). -/
def isPipInstall : Op → Bool
  | .pipInstall _ => true
  | _ => false

/-- True on the comment holding the install command. -/
def isInstallComment : Op → Bool
  | .comment text => text = pipInstallLine
  | _ => false

/-- True on any library import. -/
def isImportLib : Op → Bool
  | .importLib _ => true
  | _ => false

/-- True on an operation whose externally visible effect is a model
upload to the hub or a shutdown of the running kernel. -/
def isHubUploadOrShutdown : Op → Bool
  | .pushToHub => true
  | .kernelShutdown => true
  | _ => false

/-- Kinds of operation the glue-code description of the spec allows:
sequencing library calls, setting configuration values, formatting
console output, plus inert comments; uploads, kernel shutdown and
dependency installs fall outside it. -/
inductive OpCategory where
  | librarySequencing
  | configSetting
  | consoleFormatting
  | inertComment
  | hubUpload
  | shutdownEffect
  | dependencyInstall
deriving DecidableEq

/-- Category of each operation. -/
def opCategory : Op → OpCategory
  | .comment _ => .inertComment
  | .importLib _ => .librarySequencing
  | .login => .librarySequencing
  | .loadDataset _ _ => .librarySequencing
  | .loadModel _ => .librarySequencing
  | .loadTokenizer _ => .librarySequencing
  | .setupChatFormat => .librarySequencing
  | .generateAndPrint _ => .consoleFormatting
  | .wandbInit _ => .librarySequencing
  | .configureLora _ => .configSetting
  | .configureSft _ => .configSetting
  | .createTrainer _ => .librarySequencing
  | .trainerTrain => .librarySequencing
  | .saveModel _ => .librarySequencing
  | .wandbFinish => .librarySequencing
  | .loadPeftModel _ => .librarySequencing
  | .mergeAndUnload => .librarySequencing
  | .saveMergedModel _ _ => .librarySequencing
  | .freeMemory => .librarySequencing
  | .createPipeline => .librarySequencing
  | .displayHtml _ => .consoleFormatting
  | .pushToHub => .hubUpload
  | .kernelShutdown => .shutdownEffect
  | .pipInstall _ => .dependencyInstall

/-- True on the operations the glue-code description covers. -/
def isGlueOp (op : Op) : Bool :=
  match opCategory op with
  | .librarySequencing => true
  | .configSetting => true
  | .consoleFormatting => true
  | .inertComment => true
  | _ => false

/-- occursBefore p q ops holds when some operation satisfying p is
followed, strictly later in the list, by one satisfying q. -/
def occursBefore (p q : Op → Bool) : List Op → Bool
  | [] => false
  | op :: rest => if p op then rest.any q else occursBefore p q rest

/-! Model of the LoRA training loop.  The loop itself runs inside the
external trl and peft libraries and is not part of this repository. -/

/-- Modelled from the spec: the parameters of a model being LoRA
fine-tuned.  The training loop lives in the external trl and peft
libraries, not under src/; the glossary describes low-rank adaptation
as a technique "that freezes pretrained weights and trains small
additive low-rank matrices", so the state splits into the frozen base
weights and the two trainable low-rank factor matrices. -/
structure LoraTrainState where
  baseWeights : List Int
  adapterA : List Int
  adapterB : List Int
deriving DecidableEq

/-- Modelled from the spec: one optimizer step of LoRA fine-tuning.
Given gradient functions for the two factor matrices, the step moves
only those matrices and leaves the base weights untouched. -/
def loraOptimizerStep (gradA gradB : LoraTrainState → List Int)
    (s : LoraTrainState) : LoraTrainState :=
  { s with
    adapterA := (s.adapterA.zip (gradA s)).map (fun p => p.1 - p.2)
    adapterB := (s.adapterB.zip (gradB s)).map (fun p => p.1 - p.2) }

/-- Modelled from the spec: the training loop, iterating the optimizer
step a given number of times. -/
def loraTrainLoop (gradA gradB : LoraTrainState → List Int) :
    Nat → LoraTrainState → LoraTrainState
  | 0, s => s
  | Nat.succ n, s =>
      loraTrainLoop gradA gradB n (loraOptimizerStep gradA gradB s)

/-! The test_inference helper of the LoRA notebook. -/

/-- Python string slicing s[n:]: the string without its first n
characters. -/
def pySliceFrom (s : String) (n : Nat) : String :=
  String.mk (s.data.drop n)

/-- Python str.strip(): the string without its leading and trailing
whitespace. -/
def pyStrip (s : String) : String :=
  String.mk
    (((s.data.dropWhile Char.isWhitespace).reverse.dropWhile
        Char.isWhitespace).reverse)

namespace Lora

/-- The test_inference function of the LoRA notebook.  It rebinds
prompt to the chat-template-formatted prompt, runs the pipeline on it,
and returns outputs[0]["generated_text"][len(prompt):].strip().  The
external tokenizer template and the pipeline are passed as functions. -/
def test_inference (applyChatTemplateFn pipeFn : String → String)
    (prompt : String) : String :=
  let prompt := applyChatTemplateFn prompt
  let generated := pipeFn prompt
  pyStrip (pySliceFrom generated prompt.length)

end Lora

/-- Dropping the length of a left append factor recovers the right
factor. -/
theorem list_drop_length_append {α : Type} (l₁ l₂ : List α) :
    (l₁ ++ l₂).drop l₁.length = l₂ := by
  induction l₁ with
  | nil => rfl
  | cons a t ih => exact ih

/-- True when the operation is not a base-model load of some model
other than SmolLM2-135M. -/
def loadsOnlySmolLM2 : Op → Bool
  | .loadModel modelName => modelName = "HuggingFaceTB/SmolLM2-135M"
  | _ => true

/-- Slicing an appended string from the length of its left part yields
the right part. -/
theorem pySliceFrom_append (a b : String) :
    pySliceFrom (a ++ b) a.length = b := by
  obtain ⟨ad⟩ := a
  obtain ⟨bd⟩ := b
  show String.mk ((ad ++ bd).drop ad.length) = String.mk bd
  rw [list_drop_length_append]

/-! Claims. -/

/-- C1 counterexample: the claim fails on the turtle notebook, whose
SFTTrainer is constructed without any peft_config — the trainer it
creates (shown with cuda and mps both unavailable) has
peft_config = none, so not every supervised fine-tuning trainer of the
notebooks carries a LoraConfig. -/
theorem turtle_trainer_has_no_peft_config :
    (Turtle.trainer false false).peft_config = none
    ∧ Op.createTrainer (Turtle.trainer false false)
        ∈ Turtle.notebook false false := by
  decide

/-- C1 (amended): the LoRA notebook constructs its SFTTrainer with the
LoraConfig passed as peft_config, before trainer.train(); the turtle
notebook constructs its SFTTrainer without a peft_config, also before
training. -/
theorem lora_trainer_uses_peft_config_turtle_does_not :
    Lora.trainer.peft_config = some Lora.peft_config
    ∧ occursBefore isCreateTrainer isTrainerTrain Lora.notebook = true
    ∧ ∀ c m : Bool,
        (Turtle.trainer c m).peft_config = none
        ∧ occursBefore isCreateTrainer isTrainerTrain
            (Turtle.notebook c m) = true := by
  decide

/-- C2 counterexample: no cell of either notebook executes a dependency
install — the install command appears only inside a comment — so the
claim that on every run some cell installs the dependencies fails
(turtle shown with cuda and mps both unavailable). -/
theorem no_cell_executes_pip_install :
    Lora.notebook.any isPipInstall = false
    ∧ (Turtle.notebook false false).any isPipInstall = false := by
  decide

/-- C2 (amended): in each notebook the first operation is the comment
holding the install command for transformers, datasets, trl and
huggingface_hub; the command is never executed, and the comment
precedes the library imports. -/
theorem pip_install_only_commented_before_imports :
    Lora.notebook.head? = some (Op.comment pipInstallLine)
    ∧ Lora.notebook.any isPipInstall = false
    ∧ occursBefore isInstallComment isImportLib Lora.notebook = true
    ∧ ∀ c m : Bool,
        (Turtle.notebook c m).head? = some (Op.comment pipInstallLine)
        ∧ (Turtle.notebook c m).any isPipInstall = false
        ∧ occursBefore isInstallComment isImportLib
            (Turtle.notebook c m) = true := by
  decide

/-- C3: in both notebooks the print of the base-model sample labelled
"Before training:" precedes trainer.train(), and a generation sample is
printed after the training call. -/
theorem generation_printed_before_and_after_training :
    occursBefore isBeforeTrainingPrint isTrainerTrain Lora.notebook = true
    ∧ occursBefore isTrainerTrain isGenerationPrint Lora.notebook = true
    ∧ ∀ c m : Bool,
        occursBefore isBeforeTrainingPrint isTrainerTrain
          (Turtle.notebook c m) = true
        ∧ occursBefore isTrainerTrain isGenerationPrint
            (Turtle.notebook c m) = true := by
  decide

/-- C4: after training, the LoRA notebook calls merge_and_unload (the
adapter fold-back) and then saves the merged dense model — not the base
model plus adapter files — to the trainer output directory
args.output_dir with safe_serialization=True. -/
theorem merge_after_training_saves_dense_model_safely :
    occursBefore isTrainerTrain isMergeAndUnload Lora.notebook = true
    ∧ occursBefore isMergeAndUnload isSaveMergedModel Lora.notebook = true
    ∧ Op.saveMergedModel Lora.args.output_dir true ∈ Lora.notebook
    ∧ Lora.args.output_dir = Lora.finetune_name
    ∧ Lora.trainer.args.output_dir = Lora.args.output_dir := by
  decide

/-- C5: in the spec-modelled LoRA training loop the frozen base weights
are unchanged after any number of optimizer steps — each step rewrites
only the two low-rank factor matrices — and the LoRA notebook indeed
hands its trainer the LoraConfig that selects this adapter-based
training. -/
theorem lora_training_freezes_base_weights
    (gradA gradB : LoraTrainState → List Int) (n : Nat)
    (s : LoraTrainState) :
    (loraTrainLoop gradA gradB n s).baseWeights = s.baseWeights
    ∧ Lora.trainer.peft_config = some Lora.peft_config := by
  refine ⟨?_, rfl⟩
  induction n generalizing s with
  | zero => rfl
  | succ k ih => exact ih (loraOptimizerStep gradA gradB s)

/-- C6 counterexample: the repository code performs externally visible
effects beyond call sequencing, configuration and console output — the
turtle notebook (shown with cuda and mps both unavailable) uploads the
model via trainer.push_to_hub, and both notebooks shut the running
kernel down. -/
theorem notebooks_perform_upload_and_shutdown :
    (Turtle.notebook false false).any isHubUploadOrShutdown = true
    ∧ Op.pushToHub ∈ Turtle.notebook false false
    ∧ Op.kernelShutdown ∈ Lora.notebook := by
  decide

/-- C6 (amended): every operation of both notebooks is sequencing
library calls, setting configuration values, formatting console output
or an inert comment, except exactly the hub upload of the turtle
notebook and the final kernel shutdown of each notebook. -/
theorem glue_ops_except_upload_and_shutdown :
    Lora.notebook.filter (fun op => ! isGlueOp op) = [Op.kernelShutdown]
    ∧ ∀ c m : Bool,
        (Turtle.notebook c m).filter (fun op => ! isGlueOp op)
          = [Op.pushToHub, Op.kernelShutdown] := by
  decide

/-- C7: both notebooks load HuggingFaceTB/SmolLM2-135M (and no other
base model), load the dataset HuggingFaceTB/smoltalk with configuration
name everyday-conversations, and train on its train split. -/
theorem both_notebooks_use_smollm2_and_smoltalk_train_split :
    Op.loadModel "HuggingFaceTB/SmolLM2-135M" ∈ Lora.notebook
    ∧ Op.loadDataset "HuggingFaceTB/smoltalk" "everyday-conversations"
        ∈ Lora.notebook
    ∧ Lora.notebook.all loadsOnlySmolLM2 = true
    ∧ Lora.trainer.model_name = "HuggingFaceTB/SmolLM2-135M"
    ∧ Lora.trainer.train_split = "train"
    ∧ ∀ c m : Bool,
        Op.loadModel "HuggingFaceTB/SmolLM2-135M" ∈ Turtle.notebook c m
        ∧ Op.loadDataset "HuggingFaceTB/smoltalk" "everyday-conversations"
            ∈ Turtle.notebook c m
        ∧ (Turtle.notebook c m).all loadsOnlySmolLM2 = true
        ∧ (Turtle.trainer c m).model_name = "HuggingFaceTB/SmolLM2-135M"
        ∧ (Turtle.trainer c m).train_split = "train" := by
  decide

/-- C8: the LoraConfig of the LoRA notebook takes r = 16,
lora_alpha = 32 and lora_dropout = 0.1 from wandb.config; the parameter
cell returns the same configuration whatever the local variables
rank_dimension, lora_alpha and lora_dropout are set to, so the values
6, 8 and 0.05 assigned to those locals do not reach the training
configuration. -/
theorem lora_config_reads_wandb_config_not_locals :
    (∀ (a b : Nat) (d : Decimal), Lora.loraConfigCell a b d = Lora.peft_config)
    ∧ Lora.peft_config.r = Lora.wandb_config.rank_dimension
    ∧ Lora.peft_config.r = 16
    ∧ Lora.peft_config.lora_alpha = 32
    ∧ Lora.peft_config.lora_dropout = ⟨1, 1⟩
    ∧ Lora.peft_config.r ≠ 6
    ∧ Lora.peft_config.lora_alpha ≠ 8
    ∧ Lora.peft_config.lora_dropout ≠ ⟨5, 2⟩ := by
  exact ⟨fun a b d => rfl, rfl, rfl, rfl, rfl, by decide, by decide, by decide⟩

/-- C9: the device string has the fixed precedence cuda, then mps, then
cpu, and the use_mps_device argument of the turtle SFTConfig is True
exactly when the chosen device is mps. -/
theorem device_precedence_and_mps_flag :
    ∀ c m : Bool,
      (device c m = "cuda" ↔ c = true)
      ∧ (device c m = "mps" ↔ (c = false ∧ m = true))
      ∧ (device c m = "cpu" ↔ (c = false ∧ m = false))
      ∧ ((Turtle.sft_config c m).use_mps_device = some true
          ↔ device c m = "mps") := by
  decide

/-- C10 counterexample: with the chat template p ↦ "u:" ++ p and a
pipeline that repeats its input twice, the generated text begins with
the formatted prompt, yet the response test_inference returns is
exactly that formatted prompt — so the response does contain the
prompt prefix. -/
theorem test_inference_response_can_contain_formatted_prompt :
    (("u:" ++ "hi").data).isPrefixOf
        ((("u:" ++ "hi") ++ ("u:" ++ "hi")).data) = true
    ∧ (fun s => s ++ s) ("u:" ++ "hi") = ("u:" ++ "hi") ++ ("u:" ++ "hi")
    ∧ Lora.test_inference (fun p => "u:" ++ p) (fun s => s ++ s) "hi"
        = "u:" ++ "hi" := by
  decide

/-- C10 (amended): test_inference returns the generated text with its
first len(formatted prompt) characters removed and surrounding
whitespace stripped; in particular, whenever the generated text is the
formatted prompt followed by a remainder, the response is exactly that
remainder stripped — the leading occurrence of the prompt has been
removed, though the remainder may still repeat the prompt text. -/
theorem test_inference_strips_leading_formatted_prompt
    (applyChatTemplateFn pipeFn : String → String) (prompt rest : String)
    (h : pipeFn (applyChatTemplateFn prompt)
          = applyChatTemplateFn prompt ++ rest) :
    Lora.test_inference applyChatTemplateFn pipeFn prompt = pyStrip rest := by
  show pyStrip (pySliceFrom (pipeFn (applyChatTemplateFn prompt))
    (applyChatTemplateFn prompt).length) = pyStrip rest
  rw [h, pySliceFrom_append]

/-- C10 witness: a concrete run of the amended theorem, with the
pipeline appending " ok " to the formatted prompt; the returned
response is " ok " stripped. -/
theorem test_inference_strips_leading_formatted_prompt_witness :
    Lora.test_inference (fun p => "u:" ++ p) (fun s => s ++ " ok ") "hi"
      = pyStrip " ok " :=
  test_inference_strips_leading_formatted_prompt
    (fun p => "u:" ++ p) (fun s => s ++ " ok ") "hi" " ok " (by decide)
